import Mathlib

/-!
Verification of the satctl download engine against its specification.

The definitions below are a shallow embedding of the relevant parts of the
source tree:

* `src/satctl/downloaders/http.py`  (`HTTPDownloader`)
* `src/satctl/downloaders/s3.py`    (`S3Downloader`)
* `src/satctl/sources/base.py`      (`DataSource.download` / `DataSource.save`)
* `src/satctl/auth/odata.py`        (`ODataAuthenticator`)
* `src/satctl/auth/earthdata.py`    (`EarthDataAuthenticator`)
* `src/satctl/auth/eumetsat.py`     (`EUMETSATAuthenticator`)

Network and filesystem interactions are modelled by explicit environment
values (one per retry attempt) describing how the outside world answers each
request; the Python functions become total Lean functions from those
environments to their observable behaviour: the boolean result, the list of
progress events emitted on the process-local event bus, the number of loop
iterations (attempts) executed, and the number of bytes written to the
destination file.
-/

/-- Progress event taxonomy, from `satctl.model.ProgressEventType` together
with the keyword payloads used at each `emit_event` call site. -/
inductive Event
  | task_created (task_id : String) (description : String)
  | task_duration (task_id : String) (duration : Nat)
  | task_progress (task_id : String) (advance : Nat)
  | task_completed (task_id : String) (success : Bool) (description : Option String)
  | batch_started (task_id : String) (total_items : Nat) (description : String)
  | batch_completed (task_id : String) (success_count : Nat) (failure_count : Nat)
deriving DecidableEq, Repr

/-- True exactly on `task_completed` events. -/
def isCompleted : Event → Bool
  | .task_completed _ _ _ => true
  | _ => false

/-- True exactly on `batch_completed` events. -/
def isBatchCompleted : Event → Bool
  | .batch_completed _ _ _ => true
  | _ => false

/-- The `advance` payload of a `task_progress` event, 0 for any other event. -/
def advanceOf : Event → Nat
  | .task_progress _ a => a
  | _ => 0

/-- Sum of the `advance` payloads of all `task_progress` events in a list. -/
def sumAdvances (evs : List Event) : Nat := (evs.map advanceOf).sum

/-- Observable outcome of one `download` call: events emitted (in order),
bytes written to the destination file (summed over every `f.write` call),
number of retry-loop iterations executed, and the returned boolean. -/
structure DLResult where
  events : List Event
  bytes : Nat
  attempts : Nat
  ok : Bool
deriving DecidableEq, Repr

/-- Control outcome of one retry-loop iteration body: `success` models the
`return True` statement, `break_` models `break`, and `cont` models falling
through (or `continue`) to the next iteration. -/
inductive StepCtl
  | success
  | break_
  | cont
deriving DecidableEq, Repr

/-- Observable behaviour of one retry-loop iteration body: events emitted,
bytes written, the value of the local `error` variable afterwards, and the
control outcome. -/
structure StepOut where
  events : List Event
  bytes : Nat
  error : String
  ctl : StepCtl
deriving DecidableEq, Repr

/-- Observable behaviour of a whole retry loop. -/
structure LoopOut where
  events : List Event
  bytes : Nat
  error : String
  attempts : Nat
  ok : Bool
deriving DecidableEq, Repr

/-- The shared `for attempt in range(max_retries)` loop shape of both
downloaders: run the step body for each environment entry in order, stop
early on `return True` (`success`) or `break`, and thread the `error`
variable through. The caller passes the list already truncated to
`max_retries` entries. -/
def retryLoop {E : Type} (step : String → E → StepOut) : String → List E → LoopOut
  | error, [] => ⟨[], 0, error, 0, false⟩
  | error, e :: es =>
    let s := step error e
    match s.ctl with
    | .success => ⟨s.events, s.bytes, s.error, 1, true⟩
    | .break_ => ⟨s.events, s.bytes, s.error, 1, false⟩
    | .cont =>
      let r := retryLoop step s.error es
      ⟨s.events ++ r.events, s.bytes + r.bytes, r.error, r.attempts + 1, r.ok⟩

/-- The chunked streaming loop shared by both downloaders
(`for chunk in ...: if chunk: f.write(chunk); emit task_progress(len(chunk))`).
A chunk is modelled by its byte length; a zero-length chunk is falsy in
Python and is skipped. Returns the emitted events and the bytes written. -/
def runChunks (tid : String) : List Nat → List Event × Nat
  | [] => ([], 0)
  | c :: cs =>
    let rest := runChunks tid cs
    if c = 0 then rest
    else (Event.task_progress tid c :: rest.1, c + rest.2)

/-- Kinds of exceptions that one HTTP attempt can raise, matching the three
`except` clauses of `HTTPDownloader.download`: `requests.exceptions.Timeout`,
`requests.exceptions.RequestException`, and the final generic
`except Exception` clause (which catches every other `Exception` subclass,
for example `TypeError` or `AttributeError`; `msg` is `str(e)`). -/
inductive HttpErrKind
  | timeout
  | requestExc
  | unexpected (msg : String)
deriving DecidableEq, Repr

/-- The string stored in the local `error` variable by each `except` clause
of `HTTPDownloader.download`. -/
def HttpErrKind.errorString : HttpErrKind → String
  | .timeout => "timed out"
  | .requestExc => "exception request"
  | .unexpected msg => msg

/-- Environment describing the response obtained by `self.session.get` in one
HTTP attempt: its status code, whether a forced credential refresh (attempted
only on status 401) would succeed, the optional `Content-Length` header, the
byte lengths of the chunks yielded by `iter_content` before any mid-stream
error, and the optional mid-stream error. -/
structure HttpResponseEnv where
  status : Nat
  refreshOk : Bool
  contentLength : Option Nat
  chunks : List Nat
  streamErr : Option HttpErrKind
deriving DecidableEq, Repr

/-- Environment for one iteration of the HTTP retry loop: authentication
fails (`ensure_authenticated()` returns `False`), `session.get` raises, or a
response is obtained. -/
inductive HttpAttemptEnv
  | authFail
  | raises (k : HttpErrKind)
  | got (r : HttpResponseEnv)
deriving DecidableEq, Repr

/-- One iteration body of `HTTPDownloader.download`
(`src/satctl/downloaders/http.py`, lines 63-108). On a 401 whose refresh
fails, `continue` leaves `error` unchanged; otherwise `raise_for_status`
turns any status >= 400 into an `HTTPError` (a `RequestException`), so the
attempt records `"exception request"`. On a good status the body streams:
the optional `Content-Length` produces a `task_duration` event, each
non-empty chunk is written and produces a `task_progress` event, then either
the stream raises mid-transfer or `task_completed(success=True)` is emitted
and the function returns `True`. -/
def httpStep (tid : String) (error : String) : HttpAttemptEnv → StepOut
  | .authFail => ⟨[], 0, error, .cont⟩
  | .raises k => ⟨[], 0, k.errorString, .cont⟩
  | .got r =>
    if r.status = 401 ∧ ¬r.refreshOk then ⟨[], 0, error, .cont⟩
    else if 400 ≤ r.status then ⟨[], 0, HttpErrKind.requestExc.errorString, .cont⟩
    else
      let dur := match r.contentLength with
        | some n => [Event.task_duration tid n]
        | none => []
      let p := runChunks tid r.chunks
      match r.streamErr with
      | some k => ⟨dur ++ p.1, p.2, k.errorString, .cont⟩
      | none => ⟨dur ++ p.1 ++ [Event.task_completed tid true none], p.2, error, .success⟩

/-- Model of `HTTPDownloader.download` (`src/satctl/downloaders/http.py`, lines
49-115): emit `task_created`, run up to `max_retries` attempts, and on
exhaustion emit `task_completed(success=False, description="failed: " + error)`
and return `False`. -/
def httpDownload (max_retries : Nat) (item_id : String) (envs : List HttpAttemptEnv) : DLResult :=
  let tid := "download_" ++ item_id
  let r := retryLoop (httpStep tid) "" (envs.take max_retries)
  if r.ok then ⟨Event.task_created tid "download" :: r.events, r.bytes, r.attempts, true⟩
  else
    ⟨Event.task_created tid "download" ::
      (r.events ++ [Event.task_completed tid false (some ("failed: " ++ r.error))]),
     r.bytes, r.attempts, false⟩

/-- Kinds of exceptions one S3 attempt can raise, matching the `except`
clauses of `S3Downloader.download`: `NoCredentialsError`, `ClientError`
(with its error code string and whether a forced refresh would succeed),
`BotoCoreError`, and the final generic `except Exception` clause. -/
inductive S3ErrKind
  | noCredentials (refreshOk : Bool)
  | clientError (code : String) (refreshOk : Bool)
  | botoCore (msg : String)
  | unexpected (msg : String)
deriving DecidableEq, Repr

/-- The string stored in the local `error` variable by each `except` clause
of `S3Downloader.download`. -/
def S3ErrKind.errorString : S3ErrKind → String
  | .noCredentials _ => "no credentials"
  | .clientError code _ => "client error: " ++ code
  | .botoCore msg => "botocore error: " ++ msg
  | .unexpected msg => msg

/-- Whether a `ClientError` code hits the not-found branch
(`error_code == "404" or error_code == "NoSuchKey"`) that executes `break`. -/
def S3ErrKind.isNotFound : S3ErrKind → Bool
  | .clientError code _ => code = "404" || code = "NoSuchKey"
  | _ => false

/-- Environment for one iteration of the S3 retry loop: authentication fails
(`continue`), or the attempt proceeds with `headSize` the `ContentLength`
reported by `head_object` (`none` when the header is absent or `head_object`
raised — that inner exception is swallowed), `chunks` the byte lengths
yielded by `iter_chunks` before any error, and `err` the exception (if any)
raised by `get_object` or mid-stream. -/
inductive S3AttemptEnv
  | authFail
  | attempt (headSize : Option Nat) (chunks : List Nat) (err : Option S3ErrKind)
deriving DecidableEq, Repr

/-- One iteration body of `S3Downloader.download`
(`src/satctl/downloaders/s3.py`, lines 146-208). `task_duration` is emitted
only when a truthy (non-zero) `ContentLength` was obtained; each non-empty
chunk is written and produces `task_progress`; a not-found `ClientError`
executes `break`, every other exception records `error` and continues. -/
def s3Step (tid : String) (error : String) : S3AttemptEnv → StepOut
  | .authFail => ⟨[], 0, error, .cont⟩
  | .attempt headSize chunks err =>
    let dur := match headSize with
      | some n => if n = 0 then [] else [Event.task_duration tid n]
      | none => []
    let p := runChunks tid chunks
    match err with
    | none => ⟨dur ++ p.1 ++ [Event.task_completed tid true none], p.2, error, .success⟩
    | some k =>
      ⟨dur ++ p.1, p.2, k.errorString, if k.isNotFound then .break_ else .cont⟩

/-- Split a character list at the first occurrence of '/'; `none` when no
'/' occurs. This models Python's `path.split("/", 1)` returning a list of
length 2 versus length 1. -/
def splitFirstSlash : List Char → Option (List Char × List Char)
  | [] => none
  | c :: cs =>
    if c = '/' then some ([], cs)
    else
      match splitFirstSlash cs with
      | none => none
      | some (a, b) => some (c :: a, b)

/-- Model of `S3Downloader._parse_s3_uri` (`src/satctl/downloaders/s3.py`, lines
82-105): require the literal prefix `"s3://"`, drop it, and split the rest
at the first '/' into (bucket, key); `none` models the raised `ValueError`.
Note that empty bucket or key segments are accepted. -/
def parse_s3_uri (uri : String) : Option (String × String) :=
  match uri.toList with
  | 's' :: '3' :: ':' :: '/' :: '/' :: path =>
    match splitFirstSlash path with
    | none => none
    | some (b, k) => some (String.mk b, String.mk k)
  | _ => none

/-- Model of `S3Downloader.download` (`src/satctl/downloaders/s3.py`, lines 107-216):
return `False` with no events when `init()` was never called
(`self.s3_client` is `None`); otherwise emit `task_created`, parse the URI
(on `ValueError` emit `task_completed(success=False)` with the parse-error
description and return `False` before the loop), then run up to
`max_retries` attempts and on exhaustion or `break` emit the failure
`task_completed` and return `False`. -/
def s3Download (has_client : Bool) (max_retries : Nat) (uri : String) (item_id : String)
    (envs : List S3AttemptEnv) : DLResult :=
  if ¬has_client then ⟨[], 0, 0, false⟩
  else
    let tid := "download_" ++ item_id
    match parse_s3_uri uri with
    | none =>
      ⟨[Event.task_created tid "s3_download",
        Event.task_completed tid false
          (some ("invalid URI: Invalid S3 URI format: " ++ uri))], 0, 0, false⟩
    | some _ =>
      let r := retryLoop (s3Step tid) "" (envs.take max_retries)
      if r.ok then ⟨Event.task_created tid "s3_download" :: r.events, r.bytes, r.attempts, true⟩
      else
        ⟨Event.task_created tid "s3_download" ::
          (r.events ++ [Event.task_completed tid false (some ("failed: " ++ r.error))]),
         r.bytes, r.attempts, false⟩

/-- How a batch run ends: `none` models normal completion of the
`with ProcessPoolExecutor` block, `some k` models a `KeyboardInterrupt`
striking after the results of `k` per-item futures have been collected. -/
def BatchInterrupt : Type := Option Nat

/-- Observable behaviour of one `DataSource.download` batch: the events
emitted in the orchestrating process and the returned
`(success, failure)` lists. -/
structure BatchRun (G : Type) where
  events : List Event
  success : List G
  failure : List G

/-- Model of `DataSource.download` (`src/satctl/sources/base.py`, lines 84-136) over a
list of items. `dl` is the boolean result of `download_item` for each item
and `completionOrder` is the order in which `as_completed` yields the
futures (any permutation of `items` in a real run). Each collected result is
routed into `success` or `failure`; collection order is preserved, so the
two lists are the filters of `completionOrder`. On the normal path the
`try` block emits `batch_completed` and then `return` runs the `finally`
block, which emits `batch_completed` again before its own `return`; on the
`KeyboardInterrupt` path only the first `interrupt` collected results exist
and only the `finally` block emits `batch_completed`. -/
def DataSource_download {G : Type} (batch_id : String) (source_name : String)
    (items : List G) (dl : G → Bool) (completionOrder : List G)
    (interrupt : Option Nat) : BatchRun G :=
  let processed := match interrupt with
    | none => completionOrder
    | some k => completionOrder.take k
  let success := processed.filter (fun i => dl i)
  let failure := processed.filter (fun i => !dl i)
  let comp := Event.batch_completed batch_id success.length failure.length
  let evs := Event.batch_started batch_id items.length source_name ::
    (match interrupt with
     | none => [comp, comp]
     | some _ => [comp])
  ⟨evs, success, failure⟩

/-- State of `ODataAuthenticator`: the held `access_token` and
`refresh_token` (`None` before any successful exchange). -/
structure ODataState where
  access_token : Option String
  refresh_token : Option String
deriving DecidableEq, Repr

/-- Environment for one `ODataAuthenticator.authenticate` call: either the
token request (or `raise_for_status`) raises a `RequestException`, or a JSON
body arrives carrying optional `access_token` / `refresh_token` fields. -/
inductive ODataEnv
  | requestException
  | response (access_token : Option String) (refresh_token : Option String)
deriving DecidableEq, Repr

/-- Model of `ODataAuthenticator.authenticate` (`src/satctl/auth/odata.py`, lines
32-60). On a `RequestException` it returns `False` leaving both stored
tokens untouched; otherwise it overwrites both tokens with the response
fields and returns `False` when the new access token is falsy (`None` or
the empty string). -/
def odata_authenticate (st : ODataState) : ODataEnv → Bool × ODataState
  | .requestException => (false, st)
  | .response a r =>
    let st' : ODataState := ⟨a, r⟩
    if a.getD "" = "" then (false, st') else (true, st')

/-- State of `EarthDataAuthenticator`: the `_authenticated` flag and the
opaque `_auth_session` handle (modelled as an optional string). -/
structure EarthDataState where
  authenticated : Bool
  auth_session : Option String
deriving DecidableEq, Repr

/-- Environment for one `EarthDataAuthenticator.authenticate` call: either
`earthaccess.login` returns a session object, or it raises. -/
inductive EarthDataEnv
  | loginOk (session : String)
  | loginRaises
deriving DecidableEq, Repr

/-- Model of `EarthDataAuthenticator.authenticate` (`src/satctl/auth/earthdata.py`,
lines 45-68). An unsupported strategy raises `ValueError`, which the
function's own `except Exception` clause catches; every failure path sets
`_authenticated = False` and `_auth_session = None` before returning
`False`. -/
def earthdata_authenticate (strategy : String) (st : EarthDataState)
    (env : EarthDataEnv) : Bool × EarthDataState :=
  if strategy = "environment" ∨ strategy = "interactive" ∨ strategy = "netrc" then
    match env with
    | .loginOk s => (true, ⟨true, some s⟩)
    | .loginRaises => (false, ⟨false, none⟩)
  else (false, ⟨false, none⟩)

/-- State of `EUMETSATAuthenticator`: the `_authenticated` flag and the held
`AccessToken` object (modelled as an optional string). -/
structure EumetsatState where
  authenticated : Bool
  access_token : Option String
deriving DecidableEq, Repr

/-- Environment for one `EUMETSATAuthenticator.authenticate` call: either
the `AccessToken` constructor yields a token object, or it raises. -/
inductive EumetsatEnv
  | tokenOk (tok : String)
  | tokenRaises
deriving DecidableEq, Repr

/-- Model of `EUMETSATAuthenticator.authenticate` (`src/satctl/auth/eumetsat.py`,
lines 28-47). A constructed `AccessToken` object is always truthy, so
success stores it and sets `_authenticated = True`; the `except Exception`
clause sets `_authenticated = False` and `access_token = None`. -/
def eumetsat_authenticate (st : EumetsatState) : EumetsatEnv → Bool × EumetsatState
  | .tokenOk t => (true, ⟨true, some t⟩)
  | .tokenRaises => (false, ⟨false, none⟩)

/-- Result of running a Python call that either returns a value or raises
an exception with the given class name. -/
inductive PyOutcome (A : Type)
  | ok (val : A)
  | raises (exn : String)
deriving DecidableEq, Repr

/-- Model of `HTTPDownloader.close` (`src/satctl/downloaders/http.py`, lines
117-119): `if self.session: self.session.close()`. The `session` attribute
is assigned only inside `init`, so when `init` was never called the
attribute lookup itself raises `AttributeError`; when it was called the
guard sees a truthy session and closing succeeds. -/
def http_close (session_attr_set : Bool) : PyOutcome Unit :=
  if session_attr_set then .ok () else .raises "AttributeError"

/-- Model of `S3Downloader.close` (`src/satctl/downloaders/s3.py`, lines 218-223):
`self.s3_client` is initialized to `None` in `__init__`, so the truthiness
guard always works; close resets the reference to `None` and never raises.
Returns the new `s3_client` field. -/
def s3_close (s3_client : Option Unit) : PyOutcome (Option Unit) :=
  match s3_client with
  | some _ => .ok none
  | none => .ok none

/-- Sum of progress advances distributes over list append. -/
theorem sumAdvances_append (a b : List Event) :
    sumAdvances (a ++ b) = sumAdvances a + sumAdvances b := by
  simp [sumAdvances]

/-- Sum of progress advances over a cons cell. -/
theorem sumAdvances_cons (e : Event) (l : List Event) :
    sumAdvances (e :: l) = advanceOf e + sumAdvances l := by
  simp [sumAdvances]

/-- The last element of a list with an explicit final element. -/
theorem getLast?_snoc {A : Type} (l : List A) (a : A) : (l ++ [a]).getLast? = some a := by
  rw [List.getLast?_append_of_ne_nil _ (by simp)]
  rfl

/-- The chunk streaming loop emits progress events whose advances sum to the
bytes written, and emits no completion event. -/
theorem runChunks_spec (tid : String) (cs : List Nat) :
    sumAdvances (runChunks tid cs).1 = (runChunks tid cs).2
    ∧ (runChunks tid cs).1.countP isCompleted = 0 := by
  induction cs with
  | nil => simp [runChunks, sumAdvances]
  | cons c cs ih =>
    by_cases hc : c = 0
    · simpa [runChunks, hc] using ih
    · simp [runChunks, hc, sumAdvances_cons, List.countP_cons, advanceOf, isCompleted,
        ih.1, ih.2]

/-- The last element of a cons cell whose tail ends with an explicit final
element. -/
theorem getLast?_cons_snoc {A : Type} (x : A) (l : List A) (a : A) :
    (x :: (l ++ [a])).getLast? = some a := by
  rw [← List.cons_append]
  exact getLast?_snoc _ _

/-- Helper: advances sum unfolded to map-sum form. -/
theorem sumAdvances_def (evs : List Event) : sumAdvances evs = (evs.map advanceOf).sum := rfl

/-- Helper: advances sum of the empty event list. -/
theorem sumAdvances_nil : sumAdvances [] = 0 := rfl

/-- One HTTP attempt body: its advances sum to its bytes, it emits a
completion event exactly when it returns success, and in that case the
completion event is last and reports success. -/
theorem httpStep_spec (tid err : String) (e : HttpAttemptEnv) :
    sumAdvances (httpStep tid err e).events = (httpStep tid err e).bytes
    ∧ (httpStep tid err e).events.countP isCompleted
        = (if (httpStep tid err e).ctl = StepCtl.success then 1 else 0)
    ∧ ((httpStep tid err e).ctl = StepCtl.success →
        (httpStep tid err e).events.getLast? = some (Event.task_completed tid true none)) := by
  cases e with
  | authFail => simp [httpStep, sumAdvances]
  | raises k => simp [httpStep, sumAdvances]
  | got r =>
    obtain ⟨status, refreshOk, contentLength, chunks, streamErr⟩ := r
    obtain ⟨hs, hc⟩ := runChunks_spec tid chunks
    simp only [httpStep]
    split
    · simp [sumAdvances]
    · split
      · simp [sumAdvances]
      · cases streamErr with
        | some k =>
          cases contentLength with
          | some n =>
            simp [sumAdvances_append, sumAdvances_cons, sumAdvances_nil, advanceOf,
              List.countP_cons, List.countP_append, isCompleted, hs, hc]
          | none =>
            simp [sumAdvances_append, sumAdvances_cons, sumAdvances_nil, advanceOf,
              List.countP_cons, List.countP_append, isCompleted, hs, hc]
        | none =>
          cases contentLength with
          | some n =>
            refine ⟨?_, ?_, fun _ => ?_⟩
            · simp [sumAdvances_append, sumAdvances_cons, sumAdvances_nil, advanceOf, hs]
            · simp [List.countP_cons, List.countP_append, isCompleted, hc]
            · exact getLast?_cons_snoc _ _ _
          | none =>
            refine ⟨?_, ?_, fun _ => ?_⟩
            · simp [sumAdvances_append, sumAdvances_cons, sumAdvances_nil, advanceOf, hs]
            · simp [List.countP_cons, List.countP_append, isCompleted, hc]
            · exact getLast?_snoc _ _

/-- Helper: a step control that is either break or continue is never
success. -/
theorem break_cont_ne_success (c : Bool) :
    ((if c then StepCtl.break_ else StepCtl.cont) = StepCtl.success) = False := by
  cases c <;> simp

/-- One S3 attempt body: its advances sum to its bytes, it emits a
completion event exactly when it returns success, and in that case the
completion event is last and reports success. -/
theorem s3Step_spec (tid err : String) (e : S3AttemptEnv) :
    sumAdvances (s3Step tid err e).events = (s3Step tid err e).bytes
    ∧ (s3Step tid err e).events.countP isCompleted
        = (if (s3Step tid err e).ctl = StepCtl.success then 1 else 0)
    ∧ ((s3Step tid err e).ctl = StepCtl.success →
        (s3Step tid err e).events.getLast? = some (Event.task_completed tid true none)) := by
  cases e with
  | authFail => simp [s3Step, sumAdvances]
  | attempt headSize chunks errKind =>
    obtain ⟨hs, hc⟩ := runChunks_spec tid chunks
    simp only [s3Step]
    cases errKind with
    | some k =>
      cases headSize with
      | some n =>
        by_cases hn : n = 0
        · simp [hn, sumAdvances_append, sumAdvances_cons, sumAdvances_nil, advanceOf,
            List.countP_cons, List.countP_append, isCompleted, hs, hc, break_cont_ne_success]
        · simp [hn, sumAdvances_append, sumAdvances_cons, sumAdvances_nil, advanceOf,
            List.countP_cons, List.countP_append, isCompleted, hs, hc, break_cont_ne_success]
      | none =>
        simp [sumAdvances_append, sumAdvances_cons, sumAdvances_nil, advanceOf,
          List.countP_cons, List.countP_append, isCompleted, hs, hc, break_cont_ne_success]
    | none =>
      cases headSize with
      | some n =>
        by_cases hn : n = 0
        · refine ⟨?_, ?_, fun _ => ?_⟩
          · simp [hn, sumAdvances_append, sumAdvances_cons, sumAdvances_nil, advanceOf, hs]
          · simp [hn, List.countP_cons, List.countP_append, isCompleted, hc]
          · simp only [hn, if_pos rfl]
            exact getLast?_snoc _ _
        · refine ⟨?_, ?_, fun _ => ?_⟩
          · simp [hn, sumAdvances_append, sumAdvances_cons, sumAdvances_nil, advanceOf, hs]
          · simp [hn, List.countP_cons, List.countP_append, isCompleted, hc]
          · simp only [hn, if_neg hn]
            exact getLast?_cons_snoc _ _ _
      | none =>
        refine ⟨?_, ?_, fun _ => ?_⟩
        · simp [sumAdvances_append, sumAdvances_cons, sumAdvances_nil, advanceOf, hs]
        · simp [List.countP_cons, List.countP_append, isCompleted, hc]
        · exact getLast?_snoc _ _

/-- The retry loop preserves the per-attempt invariants: advances sum to
bytes, the loop's events contain a completion event exactly when the loop
succeeded, and on success that event is last and reports success. -/
theorem retryLoop_spec {E : Type} (step : String → E → StepOut) (tid : String)
    (hstep : ∀ (err : String) (e : E),
      sumAdvances (step err e).events = (step err e).bytes
      ∧ (step err e).events.countP isCompleted
          = (if (step err e).ctl = StepCtl.success then 1 else 0)
      ∧ ((step err e).ctl = StepCtl.success →
          (step err e).events.getLast? = some (Event.task_completed tid true none)))
    (err : String) (envs : List E) :
    sumAdvances (retryLoop step err envs).events = (retryLoop step err envs).bytes
    ∧ (retryLoop step err envs).events.countP isCompleted
        = (if (retryLoop step err envs).ok then 1 else 0)
    ∧ ((retryLoop step err envs).ok = true →
        (retryLoop step err envs).events.getLast?
          = some (Event.task_completed tid true none)) := by
  induction envs generalizing err with
  | nil => simp [retryLoop, sumAdvances]
  | cons e es ih =>
    obtain ⟨h1, h2, h3⟩ := hstep err e
    rcases hse : step err e with ⟨evs, b, er, ctl⟩
    rw [hse] at h1 h2 h3
    dsimp only at h1 h2 h3
    simp only [retryLoop, hse]
    cases ctl with
    | success =>
      simp only at h2
      refine ⟨h1, by simpa using h2, fun _ => h3 rfl⟩
    | break_ =>
      simp at h2
      refine ⟨h1, by simpa using h2, fun h => absurd h (by simp)⟩
    | cont =>
      have h2' : List.countP isCompleted evs = 0 := by simpa using h2
      obtain ⟨i1, i2, i3⟩ := ih er
      refine ⟨?_, ?_, ?_⟩
      · dsimp only
        rw [sumAdvances_append, h1, i1]
      · dsimp only
        rw [List.countP_append, h2', i2]
        simp
      · dsimp only
        intro hok
        have i2' : (retryLoop step er es).events.countP isCompleted = 1 := by
          rw [i2, if_pos hok]
        have hne : (retryLoop step er es).events ≠ [] := by
          intro hnil
          rw [hnil, List.countP_nil] at i2'
          exact absurd i2' (by decide)
        rw [List.getLast?_append_of_ne_nil _ hne]
        exact i3 hok

/-- The last element of a nonempty-tail cons cell. -/
theorem getLast?_cons_of_ne_nil {A : Type} (x : A) (l : List A) (h : l ≠ []) :
    (x :: l).getLast? = l.getLast? := by
  rw [← List.singleton_append, List.getLast?_append_of_ne_nil _ h]

/-- The common wrapper shared by both `download` methods: prepending the
`task_created` event and, on failure, appending the failure
`task_completed` event yields an event stream that starts with
`task_created`, contains exactly one completion event, ends with a
completion event, and whose advances sum to the bytes written. -/
theorem download_wrap_spec (tid desc fdesc : String) (r : LoopOut) (d : DLResult)
    (hd : d = if r.ok
      then (⟨Event.task_created tid desc :: r.events, r.bytes, r.attempts, true⟩ : DLResult)
      else ⟨Event.task_created tid desc ::
              (r.events ++ [Event.task_completed tid false (some fdesc)]),
            r.bytes, r.attempts, false⟩)
    (h1 : sumAdvances r.events = r.bytes)
    (h2 : r.events.countP isCompleted = (if r.ok then 1 else 0))
    (h3 : r.ok = true → r.events.getLast? = some (Event.task_completed tid true none)) :
    d.events.head? = some (Event.task_created tid desc)
    ∧ d.events.countP isCompleted = 1
    ∧ (∃ ok dd, d.events.getLast? = some (Event.task_completed tid ok dd))
    ∧ sumAdvances d.events = d.bytes := by
  subst hd
  by_cases hok : r.ok = true
  · rw [if_pos hok]
    rw [hok] at h2
    simp only [if_pos rfl] at h2
    have hne : r.events ≠ [] := by
      intro hnil
      rw [hnil, List.countP_nil] at h2
      exact absurd h2 (by decide)
    refine ⟨rfl, ?_, ?_, ?_⟩
    · simp [List.countP_cons, isCompleted, h2]
    · refine ⟨true, none, ?_⟩
      rw [getLast?_cons_of_ne_nil _ _ hne]
      exact h3 hok
    · simp [sumAdvances_cons, advanceOf, h1]
  · rw [Bool.not_eq_true] at hok
    rw [if_neg (by simp [hok])]
    rw [hok] at h2
    simp only [Bool.false_eq_true, if_false] at h2
    refine ⟨rfl, ?_, ?_, ?_⟩
    · simp [List.countP_cons, List.countP_append, isCompleted, h2]
    · exact ⟨false, some fdesc, getLast?_cons_snoc _ _ _⟩
    · simp [sumAdvances_cons, sumAdvances_append, sumAdvances_nil, advanceOf, h1]

/-- A retry loop over identical attempts that each emit nothing, write
nothing, store a fixed error string and continue, runs through its whole
budget and fails, with that error string recorded (the initial empty error
survives only a zero-length budget). -/
theorem retryLoop_replicate_silent {E : Type} (step : String → E → StepOut) (e : E)
    (es : String) (h : ∀ err, step err e = ⟨[], 0, es, StepCtl.cont⟩) (n : Nat) :
    ∀ err, retryLoop step err (List.replicate n e)
      = ⟨[], 0, if n = 0 then err else es, n, false⟩ := by
  induction n with
  | zero =>
    intro err
    simp [retryLoop]
  | succ k ih =>
    intro err
    simp only [List.replicate_succ, retryLoop, h, ih]
    simp

/-- C10: if `S3Downloader.download` is called before `init()` (`s3_client`
is `None`), it returns false immediately and emits no progress events at
all for that call — not even `task_created` or a
`task_completed(success=false)`. -/
theorem C10_uninit_s3_download_silent (max_retries : Nat) (uri item_id : String)
    (envs : List S3AttemptEnv) :
    s3Download false max_retries uri item_id envs = ⟨[], 0, 0, false⟩ := rfl

/-- C10 witness: the general theorem applied at a concrete call. -/
theorem C10_uninit_s3_download_silent_witness :
    s3Download false 3 "s3://bucket/key" "item"
        [S3AttemptEnv.attempt none [8192] none] = ⟨[], 0, 0, false⟩ :=
  C10_uninit_s3_download_silent 3 "s3://bucket/key" "item"
    [S3AttemptEnv.attempt none [8192] none]

/-- C4: calling `close()` when `init()` was never called raises
`AttributeError` for `HTTPDownloader` (the `session` attribute does not
exist yet) and succeeds for `S3Downloader` (whose `s3_client` is `None`
from `__init__`); after `init`, `HTTPDownloader.close` succeeds too. -/
theorem C4_close_without_init :
    http_close false = PyOutcome.raises "AttributeError"
    ∧ http_close true = PyOutcome.ok ()
    ∧ s3_close none = PyOutcome.ok none
    ∧ s3_close (some ()) = PyOutcome.ok none :=
  ⟨rfl, rfl, rfl, rfl⟩

/-- C1 (amended): a batch run of `DataSource.download` emits
`batch_completed` exactly twice on the normal-completion path (once in the
`try` block and once more in the `finally` block) and exactly once on the
`KeyboardInterrupt` path. -/
theorem C1_amended_batch_completed_count {G : Type} (batch_id source_name : String)
    (items : List G) (dl : G → Bool) (completionOrder : List G) (interrupt : Option Nat) :
    (DataSource_download batch_id source_name items dl completionOrder
        interrupt).events.countP isBatchCompleted
      = match interrupt with
        | none => 2
        | some _ => 1 := by
  cases interrupt <;>
    simp [DataSource_download, List.countP_cons, List.countP_nil, isBatchCompleted]

/-- C1 counterexample: on the normal-completion path of a one-item batch,
two `batch_completed` events are emitted for the batch task id, refuting
the claim that exactly one is emitted per batch. -/
theorem C1_counterexample_normal_path_double_emission :
    (DataSource_download "batch" "src" ([0] : List Nat) (fun _ => true) [0] none).events
      = [Event.batch_started "batch" 1 "src",
         Event.batch_completed "batch" 1 0,
         Event.batch_completed "batch" 1 0]
    ∧ (DataSource_download "batch" "src" ([0] : List Nat) (fun _ => true) [0]
          none).events.countP isBatchCompleted = 2 := by
  decide

/-- C7: for a non-interrupted batch where every per-item task completes,
the returned `(success, failure)` pair partitions the input: the lengths
add up to the input length, the concatenation is a permutation of the
input list, and the two collections are disjoint. -/
theorem C7_batch_partition {G : Type} (batch_id source_name : String)
    (items : List G) (dl : G → Bool) (completionOrder : List G)
    (h : List.Perm completionOrder items) :
    (DataSource_download batch_id source_name items dl completionOrder none).success.length
        + (DataSource_download batch_id source_name items dl completionOrder
            none).failure.length
      = items.length
    ∧ List.Perm
        ((DataSource_download batch_id source_name items dl completionOrder none).success
          ++ (DataSource_download batch_id source_name items dl completionOrder none).failure)
        items
    ∧ ∀ x, x ∈ (DataSource_download batch_id source_name items dl completionOrder none).success
        → x ∉ (DataSource_download batch_id source_name items dl completionOrder
            none).failure := by
  have hperm : List.Perm
      (completionOrder.filter (fun i => dl i) ++ completionOrder.filter (fun i => !dl i))
      items := (List.filter_append_perm (fun i => dl i) completionOrder).trans h
  refine ⟨?_, ?_, ?_⟩
  · have hl := hperm.length_eq
    simpa [DataSource_download, List.length_append] using hl
  · simpa [DataSource_download] using hperm
  · intro x hx hx'
    simp only [DataSource_download, List.mem_filter] at hx hx'
    rw [hx.2] at hx'
    simp at hx'

/-- C7 witness: the partition theorem applied to a concrete two-item batch
whose completion order is reversed. -/
theorem C7_batch_partition_witness :
    List.Perm ([2, 1] : List Nat) [1, 2]
    ∧ ((DataSource_download "b" "s" ([1, 2] : List Nat) (fun n => n % 2 == 0) [2, 1]
            none).success.length
        + (DataSource_download "b" "s" ([1, 2] : List Nat) (fun n => n % 2 == 0) [2, 1]
            none).failure.length
      = ([1, 2] : List Nat).length
    ∧ List.Perm
        ((DataSource_download "b" "s" ([1, 2] : List Nat) (fun n => n % 2 == 0) [2, 1]
            none).success
          ++ (DataSource_download "b" "s" ([1, 2] : List Nat) (fun n => n % 2 == 0) [2, 1]
              none).failure)
        [1, 2]
    ∧ ∀ x, x ∈ (DataSource_download "b" "s" ([1, 2] : List Nat) (fun n => n % 2 == 0) [2, 1]
            none).success
        → x ∉ (DataSource_download "b" "s" ([1, 2] : List Nat) (fun n => n % 2 == 0) [2, 1]
            none).failure) :=
  ⟨by decide, C7_batch_partition "b" "s" [1, 2] (fun n => n % 2 == 0) [2, 1] (by decide)⟩

/-- C6: with `maxRetries = N` (any N >= 1, written N = n+1) and every
attempt failing with a transient error, both downloaders perform exactly N
attempts, return false, and the whole event stream for the task is
`task_created` followed by exactly one `task_completed(success=false)`
carrying the last error. -/
theorem C6_retry_bound_transient (n : Nat) (iid : String) :
    httpDownload (n+1) iid
        (List.replicate (n+1) (HttpAttemptEnv.raises HttpErrKind.timeout))
      = ⟨[Event.task_created ("download_" ++ iid) "download",
          Event.task_completed ("download_" ++ iid) false (some "failed: timed out")],
         0, n+1, false⟩
    ∧ s3Download true (n+1) "s3://bucket/key" iid
        (List.replicate (n+1)
          (S3AttemptEnv.attempt none [] (some (S3ErrKind.botoCore "conn"))))
      = ⟨[Event.task_created ("download_" ++ iid) "s3_download",
          Event.task_completed ("download_" ++ iid) false
            (some "failed: botocore error: conn")],
         0, n+1, false⟩ := by
  constructor
  · simp only [httpDownload, List.take_replicate, Nat.min_self]
    rw [retryLoop_replicate_silent (httpStep ("download_" ++ iid))
      (HttpAttemptEnv.raises HttpErrKind.timeout) "timed out" (fun _ => rfl) (n+1) ""]
    simp
  · have hp : parse_s3_uri "s3://bucket/key" = some ("bucket", "key") := by decide
    simp only [s3Download, hp, List.take_replicate, Nat.min_self]
    rw [retryLoop_replicate_silent (s3Step ("download_" ++ iid))
      (S3AttemptEnv.attempt none [] (some (S3ErrKind.botoCore "conn")))
      "botocore error: conn" (fun _ => rfl) (n+1) ""]
    simp

/-- C5 (amended): an unexpected programming error (any other `Exception`
subclass, e.g. `TypeError` or `AttributeError`) raised inside the transfer
loop is caught by the final generic `except Exception` clause of both
downloaders, recorded as the error description, counted against the retry
budget, and after exhaustion `download` returns false with the error text
in the failure `task_completed` — it is not re-raised. -/
theorem C5_amended_unexpected_swallowed (msg : String) (n : Nat) (iid : String) :
    httpDownload (n+1) iid
        (List.replicate (n+1) (HttpAttemptEnv.raises (HttpErrKind.unexpected msg)))
      = ⟨[Event.task_created ("download_" ++ iid) "download",
          Event.task_completed ("download_" ++ iid) false (some ("failed: " ++ msg))],
         0, n+1, false⟩
    ∧ s3Download true (n+1) "s3://bucket/key" iid
        (List.replicate (n+1)
          (S3AttemptEnv.attempt none [] (some (S3ErrKind.unexpected msg))))
      = ⟨[Event.task_created ("download_" ++ iid) "s3_download",
          Event.task_completed ("download_" ++ iid) false (some ("failed: " ++ msg))],
         0, n+1, false⟩ := by
  constructor
  · simp only [httpDownload, List.take_replicate, Nat.min_self]
    rw [retryLoop_replicate_silent (httpStep ("download_" ++ iid))
      (HttpAttemptEnv.raises (HttpErrKind.unexpected msg)) msg (fun _ => rfl) (n+1) ""]
    simp
  · have hp : parse_s3_uri "s3://bucket/key" = some ("bucket", "key") := by decide
    simp only [s3Download, hp, List.take_replicate, Nat.min_self]
    rw [retryLoop_replicate_silent (s3Step ("download_" ++ iid))
      (S3AttemptEnv.attempt none [] (some (S3ErrKind.unexpected msg)))
      msg (fun _ => rfl) (n+1) ""]
    simp

/-- C5 counterexample: a `TypeError` raised inside the HTTP transfer loop
with `maxRetries = 1` is converted into a false return (with a
`task_completed(success=false)` event), not propagated — refuting the
claim that unexpected programming errors propagate out of `download`. -/
theorem C5_counterexample_typeerror_swallowed :
    httpDownload 1 "i" [HttpAttemptEnv.raises (HttpErrKind.unexpected "TypeError: bad")]
      = ⟨[Event.task_created "download_i" "download",
          Event.task_completed "download_i" false (some "failed: TypeError: bad")],
         0, 1, false⟩ := by
  decide

/-- C2 (amended): a not-found response stops retrying only in the S3
downloader: a `ClientError` with code `404` or `NoSuchKey` on the first
attempt makes `S3Downloader.download` break after exactly one attempt and
return false, for any `maxRetries = n+1`; the HTTP downloader instead
turns a 404 response into an `HTTPError` caught as a `RequestException`
and consumes the whole retry budget of `n+1` attempts before returning
false. -/
theorem C2_amended_notfound_retry_behavior (n : Nat) (iid : String) (hs : Option Nat)
    (cs : List Nat) (ro : Bool) (rest : List S3AttemptEnv) :
    ((s3Download true (n+1) "s3://bucket/key" iid
        (S3AttemptEnv.attempt hs cs (some (S3ErrKind.clientError "404" ro))
          :: rest)).attempts = 1
      ∧ (s3Download true (n+1) "s3://bucket/key" iid
          (S3AttemptEnv.attempt hs cs (some (S3ErrKind.clientError "404" ro))
            :: rest)).ok = false)
    ∧ ((s3Download true (n+1) "s3://bucket/key" iid
        (S3AttemptEnv.attempt hs cs (some (S3ErrKind.clientError "NoSuchKey" ro))
          :: rest)).attempts = 1
      ∧ (s3Download true (n+1) "s3://bucket/key" iid
          (S3AttemptEnv.attempt hs cs (some (S3ErrKind.clientError "NoSuchKey" ro))
            :: rest)).ok = false)
    ∧ ((httpDownload (n+1) iid
        (List.replicate (n+1)
          (HttpAttemptEnv.got ⟨404, false, none, [], none⟩))).attempts = n+1
      ∧ (httpDownload (n+1) iid
          (List.replicate (n+1)
            (HttpAttemptEnv.got ⟨404, false, none, [], none⟩))).ok = false) := by
  have hp : parse_s3_uri "s3://bucket/key" = some ("bucket", "key") := by decide
  refine ⟨?_, ?_, ?_⟩
  · have hctl : (s3Step ("download_" ++ iid) ""
        (S3AttemptEnv.attempt hs cs (some (S3ErrKind.clientError "404" ro)))).ctl
        = StepCtl.break_ := rfl
    simp only [s3Download, hp, List.take_succ_cons, retryLoop, hctl]
    constructor <;> simp
  · have hctl : (s3Step ("download_" ++ iid) ""
        (S3AttemptEnv.attempt hs cs (some (S3ErrKind.clientError "NoSuchKey" ro)))).ctl
        = StepCtl.break_ := rfl
    simp only [s3Download, hp, List.take_succ_cons, retryLoop, hctl]
    constructor <;> simp
  · simp only [httpDownload, List.take_replicate, Nat.min_self]
    rw [retryLoop_replicate_silent (httpStep ("download_" ++ iid))
      (HttpAttemptEnv.got ⟨404, false, none, [], none⟩)
      "exception request" (fun _ => rfl) (n+1) ""]
    constructor <;> simp

/-- C2 counterexample: the HTTP downloader with `maxRetries = 3` answered
by a persistent 404 performs 3 attempts, not exactly 1, refuting the
claim for "every Downloader (HTTP and S3 alike)". -/
theorem C2_counterexample_http_404_retried :
    (httpDownload 3 "item"
        (List.replicate 3 (HttpAttemptEnv.got ⟨404, false, none, [], none⟩))).attempts = 3
    ∧ (httpDownload 3 "item"
        (List.replicate 3 (HttpAttemptEnv.got ⟨404, false, none, [], none⟩))).ok = false := by
  decide

/-- Helper equation: when URI parsing raises `ValueError`, `download`
emits `task_created` then the failure `task_completed` with the
parse-error description, performs zero attempts, writes nothing and
returns false. -/
theorem s3Download_parse_none (max_retries : Nat) (uri iid : String)
    (envs : List S3AttemptEnv) (hp : parse_s3_uri uri = none) :
    s3Download true max_retries uri iid envs
      = ⟨[Event.task_created ("download_" ++ iid) "s3_download",
          Event.task_completed ("download_" ++ iid) false
            (some ("invalid URI: Invalid S3 URI format: " ++ uri))], 0, 0, false⟩ := by
  simp [s3Download, hp]

/-- Helper equation: when URI parsing succeeds, `download` runs the retry
loop and wraps its events between `task_created` and, on failure, the
failure `task_completed`. -/
theorem s3Download_parse_some_eq (max_retries : Nat) (uri iid : String)
    (envs : List S3AttemptEnv) (bk : String × String) (hp : parse_s3_uri uri = some bk) :
    s3Download true max_retries uri iid envs
      = (let tid := "download_" ++ iid
         let r := retryLoop (s3Step tid) "" (envs.take max_retries)
         if r.ok then
           (⟨Event.task_created tid "s3_download" :: r.events, r.bytes, r.attempts,
             true⟩ : DLResult)
         else
           ⟨Event.task_created tid "s3_download" ::
               (r.events ++ [Event.task_completed tid false (some ("failed: " ++ r.error))]),
             r.bytes, r.attempts, false⟩) := by
  simp [s3Download, hp]

/-- C8 (amended): an address the parser rejects — wrong scheme, or no '/'
separating container from key — makes `S3Downloader.download` fail
immediately: zero retry-loop attempts, return false, and a
`task_completed(success=false)` carrying the parse-error description.
Addresses with an empty container or empty key segment (e.g. `s3:///key`)
are accepted by the parser and do enter the retry loop. -/
theorem C8_amended_malformed_address (max_retries : Nat) (uri iid : String)
    (envs : List S3AttemptEnv) (hp : parse_s3_uri uri = none) :
    s3Download true max_retries uri iid envs
      = ⟨[Event.task_created ("download_" ++ iid) "s3_download",
          Event.task_completed ("download_" ++ iid) false
            (some ("invalid URI: Invalid S3 URI format: " ++ uri))], 0, 0, false⟩ :=
  s3Download_parse_none max_retries uri iid envs hp

/-- C8 witness: the amended theorem applied to the spec's own example
address, which the parser rejects for its wrong scheme. -/
theorem C8_amended_malformed_address_witness :
    parse_s3_uri "http://bucket-without-key" = none
    ∧ s3Download true 3 "http://bucket-without-key" "item" []
      = ⟨[Event.task_created "download_item" "s3_download",
          Event.task_completed "download_item" false
            (some "invalid URI: Invalid S3 URI format: http://bucket-without-key")],
         0, 0, false⟩ :=
  ⟨by decide, C8_amended_malformed_address 3 "http://bucket-without-key" "item" [] (by decide)⟩

/-- C8 counterexample: `s3:///key` has an empty (missing) container
segment, yet the parser accepts it, so `download` does not fail
immediately: with a persistently failing client it performs 3 attempts
instead of the claimed zero. -/
theorem C8_counterexample_empty_container_enters_loop :
    parse_s3_uri "s3:///key" = some ("", "key")
    ∧ (s3Download true 3 "s3:///key" "item"
        (List.replicate 3
          (S3AttemptEnv.attempt none [] (some (S3ErrKind.botoCore "err"))))).attempts = 3
    ∧ (s3Download true 3 "s3:///key" "item"
        (List.replicate 3
          (S3AttemptEnv.attempt none [] (some (S3ErrKind.botoCore "err"))))).ok = false := by
  decide

/-- C3 (amended): `EarthDataAuthenticator.authenticate` and
`EUMETSATAuthenticator.authenticate` leave the authenticator cleared
(unauthenticated, no session/token) whenever they return false;
`ODataAuthenticator.authenticate` does not: on a `RequestException` it
returns false with its stored tokens — including any previously held
access token — unchanged. -/
theorem C3_amended_credential_clearing :
    (∀ (strategy : String) (st : EarthDataState) (env : EarthDataEnv),
      (earthdata_authenticate strategy st env).1 = false →
      (earthdata_authenticate strategy st env).2 = ⟨false, none⟩)
    ∧ (∀ (st : EumetsatState) (env : EumetsatEnv),
      (eumetsat_authenticate st env).1 = false →
      (eumetsat_authenticate st env).2 = ⟨false, none⟩)
    ∧ (∀ st : ODataState,
      (odata_authenticate st ODataEnv.requestException).1 = false
      ∧ (odata_authenticate st ODataEnv.requestException).2 = st) := by
  refine ⟨?_, ?_, fun st => ⟨rfl, rfl⟩⟩
  · intro strategy st env hfail
    by_cases hstrat : strategy = "environment" ∨ strategy = "interactive" ∨ strategy = "netrc"
    · cases env with
      | loginOk s => simp [earthdata_authenticate, hstrat] at hfail
      | loginRaises => simp [earthdata_authenticate, hstrat]
    · simp [earthdata_authenticate, hstrat]
  · intro st env hfail
    cases env with
    | tokenOk t => simp [eumetsat_authenticate] at hfail
    | tokenRaises => rfl

/-- C3 witness: the amended theorem applied at concrete failing exchanges
for the two authenticators that do clear their credentials. -/
theorem C3_amended_credential_clearing_witness :
    (earthdata_authenticate "environment" ⟨true, some "sess"⟩ EarthDataEnv.loginRaises).2
      = ⟨false, none⟩
    ∧ (eumetsat_authenticate ⟨true, some "tok"⟩ EumetsatEnv.tokenRaises).2 = ⟨false, none⟩ :=
  ⟨C3_amended_credential_clearing.1 "environment" ⟨true, some "sess"⟩
      EarthDataEnv.loginRaises (by decide),
   C3_amended_credential_clearing.2.1 ⟨true, some "tok"⟩ EumetsatEnv.tokenRaises (by decide)⟩

/-- C3 counterexample: an `ODataAuthenticator` holding a previous access
token whose re-authentication request raises returns false with the old
token still stored, refuting the claim that every failed exchange leaves
the credential cleared. -/
theorem C3_counterexample_odata_token_retained :
    odata_authenticate ⟨some "old-token", some "refresh"⟩ ODataEnv.requestException
      = (false, ⟨some "old-token", some "refresh"⟩) := by
  decide

/-- C9: for every single download task of either downloader (the S3 one
initialized), the emitted event sequence begins with `task_created`, ends
with exactly one `task_completed`, and the `task_progress` advances (each
the byte length of a written chunk) sum to the total number of bytes
written to the destination file over the call. -/
theorem C9_event_stream_per_task (max_retries : Nat) (iid uri : String)
    (httpEnvs : List HttpAttemptEnv) (s3Envs : List S3AttemptEnv) :
    ((httpDownload max_retries iid httpEnvs).events.head?
        = some (Event.task_created ("download_" ++ iid) "download")
      ∧ (httpDownload max_retries iid httpEnvs).events.countP isCompleted = 1
      ∧ (∃ ok d, (httpDownload max_retries iid httpEnvs).events.getLast?
          = some (Event.task_completed ("download_" ++ iid) ok d))
      ∧ sumAdvances (httpDownload max_retries iid httpEnvs).events
          = (httpDownload max_retries iid httpEnvs).bytes)
    ∧ ((s3Download true max_retries uri iid s3Envs).events.head?
        = some (Event.task_created ("download_" ++ iid) "s3_download")
      ∧ (s3Download true max_retries uri iid s3Envs).events.countP isCompleted = 1
      ∧ (∃ ok d, (s3Download true max_retries uri iid s3Envs).events.getLast?
          = some (Event.task_completed ("download_" ++ iid) ok d))
      ∧ sumAdvances (s3Download true max_retries uri iid s3Envs).events
          = (s3Download true max_retries uri iid s3Envs).bytes) := by
  constructor
  · obtain ⟨l1, l2, l3⟩ := retryLoop_spec (httpStep ("download_" ++ iid))
      ("download_" ++ iid) (fun err e => httpStep_spec ("download_" ++ iid) err e)
      "" (httpEnvs.take max_retries)
    exact download_wrap_spec ("download_" ++ iid) "download" _ _
      (httpDownload max_retries iid httpEnvs) rfl l1 l2 l3
  · cases hp : parse_s3_uri uri with
    | none =>
      rw [s3Download_parse_none max_retries uri iid s3Envs hp]
      refine ⟨rfl, by simp [List.countP_cons, List.countP_nil, isCompleted], ?_, rfl⟩
      exact ⟨false, some ("invalid URI: Invalid S3 URI format: " ++ uri), rfl⟩
    | some bk =>
      rw [s3Download_parse_some_eq max_retries uri iid s3Envs bk hp]
      obtain ⟨l1, l2, l3⟩ := retryLoop_spec (s3Step ("download_" ++ iid))
        ("download_" ++ iid) (fun err e => s3Step_spec ("download_" ++ iid) err e)
        "" (s3Envs.take max_retries)
      exact download_wrap_spec ("download_" ++ iid) "s3_download" _ _ _ rfl l1 l2 l3
